import Mathlib

/-
Verification of the Aerochat Conversation Logger against its specification.

The embedding covers:
  - a JSON value model with JavaScript truthiness, since the ingestion
    handler (src/api/log-event.ts) tests request-body fields with the
    JavaScript negation operator and defaults fields with the
    logical-or-null pattern;
  - the conversation_events durable store, modelled from the SQL table
    definition (primary key on event_id, NOT NULL and CHECK constraints);
  - the ingestion handler and the health probe handler from
    src/api/log-event.ts;
  - the producer-side dispatcher fire_log and its inner coroutine
    _log_event from the reference implementation in the task brief
    (src/unnamed/part_000, section 5.1).
-/

namespace AerochatLogger

/-- JSON-shaped values as seen by the ingestion handler. The undefined
JavaScript value is represented by Option.none at the points where it can
occur (absent request body, absent object field). -/
inductive JsonValue where
  | null
  | bool (b : Bool)
  | num (n : Int)
  | str (s : String)
  | arr (elts : List JsonValue)
  | obj (fields : List (String × JsonValue))
deriving Repr

/-- JavaScript truthiness of a defined JSON value: null, false, 0 and the
empty string are falsy; arrays and objects are always truthy. -/
def truthy : JsonValue → Bool
  | .null => false
  | .bool b => b
  | .num n => n != 0
  | .str s => s != ""
  | .arr _ => true
  | .obj _ => true

/-- JavaScript truthiness of a possibly undefined value: undefined is falsy. -/
def truthyOpt : Option JsonValue → Bool
  | none => false
  | some v => truthy v

/-- Lookup of a key in an object literal, first occurrence wins. -/
def lookupField : List (String × JsonValue) → String → Option JsonValue
  | [], _ => none
  | (k, v) :: rest, key => if k == key then some v else lookupField rest key

/-- Property access on a JSON value: field lookup on objects, undefined
(none) on every other shape and on a missing key. -/
def getField : JsonValue → String → Option JsonValue
  | .obj fs, key => lookupField fs key
  | _, _ => none

/-- The JavaScript pattern x OR d: the value itself when truthy, the
default otherwise (undefined, null, false, 0 and the empty string all fall
through to the default). -/
def orDefault (o : Option JsonValue) (d : JsonValue) : JsonValue :=
  match o with
  | some v => if truthy v then v else d
  | none => d

/-- The JavaScript pattern x OR null used for the optional columns. -/
def orNull (o : Option JsonValue) : JsonValue :=
  orDefault o .null

/-- Structural equality of JSON values, used by the store model to detect
a primary-key conflict on event_id. -/
def beqJson : JsonValue → JsonValue → Bool
  | .null, .null => true
  | .bool a, .bool b => a == b
  | .num a, .num b => a == b
  | .str a, .str b => a == b
  | .arr [], .arr [] => true
  | .arr (x :: xs), .arr (y :: ys) => beqJson x y && beqJson (.arr xs) (.arr ys)
  | .obj [], .obj [] => true
  | .obj ((k, v) :: xs), .obj ((l, w) :: ys) =>
      k == l && beqJson v w && beqJson (.obj xs) (.obj ys)
  | _, _ => false

/-- One row of the conversation_events table: exactly the nineteen columns
of the SQL definition in src/unnamed/part_001, in order, holding the JSON
values the ingestion handler passes to the insert call. -/
structure Row where
  event_id : JsonValue
  conversation_id : JsonValue
  merchant_id : JsonValue
  direction : JsonValue
  source : JsonValue
  message : JsonValue
  timestamp : JsonValue
  intention : JsonValue
  tagging : JsonValue
  language : JsonValue
  contextual_summary : JsonValue
  working_context : JsonValue
  memory_basket : JsonValue
  retrieved_docs : JsonValue
  filter_response : JsonValue
  model_calls : JsonValue
  response_time_ms : JsonValue
  eval : JsonValue
  metadata : JsonValue
deriving Repr

/-- Null test on a stored value, for the NOT NULL constraints. -/
def isNull : JsonValue → Bool
  | .null => true
  | _ => false

/-- CHECK constraint of the direction column: null or one of the two
allowed text labels. A value of any other shape cannot be stored in the
TEXT column and is likewise rejected. -/
def checkDirection : JsonValue → Bool
  | .null => true
  | .str s => s == "inbound" || s == "outbound"
  | _ => false

/-- CHECK constraint of the source column: null or one of the four allowed
text labels. -/
def checkSource : JsonValue → Bool
  | .null => true
  | .str s => s == "customer" || s == "bot" || s == "human_agent" || s == "system"
  | _ => false

/-- Error message the store reports on a duplicate event_id. -/
def pkConflictMsg : String :=
  "duplicate key value violates unique constraint conversation_events_pkey"

/-- Primary-key conflict: some existing row already carries this event_id. -/
def pkConflict (store : List Row) (r : Row) : Bool :=
  store.any fun x => beqJson x.event_id r.event_id

/-- Numeric value of a decimal digit character. -/
def digitVal (c : Char) : Nat := c.toNat - 48

/-- Accepted endings of a UTC instant literal: a bare Z suffix or a
three-digit millisecond fraction before it (the shape produced by the
toISOString default in the handler). -/
def isoTail : List Char → Bool
  | ['Z'] => true
  | ['.', a, b, c, 'Z'] => a.isDigit && b.isDigit && c.isDigit
  | _ => false

/-- A string castable to the timestamptz column: an ISO-8601 UTC instant
YYYY-MM-DDTHH:MM:SS with optional milliseconds and a Z suffix, with the
calendar fields in range. Other PostgreSQL input formats are outside the
model; every value the handler itself produces has this shape. -/
def isIsoInstant (s : String) : Bool :=
  match s.data with
  | y1 :: y2 :: y3 :: y4 :: '-' :: m1 :: m2 :: '-' :: d1 :: d2 :: 'T' ::
      h1 :: h2 :: ':' :: n1 :: n2 :: ':' :: p1 :: p2 :: tail =>
      y1.isDigit && y2.isDigit && y3.isDigit && y4.isDigit &&
      m1.isDigit && m2.isDigit && d1.isDigit && d2.isDigit &&
      h1.isDigit && h2.isDigit && n1.isDigit && n2.isDigit &&
      p1.isDigit && p2.isDigit &&
      decide (1 ≤ digitVal m1 * 10 + digitVal m2) &&
      decide (digitVal m1 * 10 + digitVal m2 ≤ 12) &&
      decide (1 ≤ digitVal d1 * 10 + digitVal d2) &&
      decide (digitVal d1 * 10 + digitVal d2 ≤ 31) &&
      decide (digitVal h1 * 10 + digitVal h2 ≤ 23) &&
      decide (digitVal n1 * 10 + digitVal n2 ≤ 59) &&
      decide (digitVal p1 * 10 + digitVal p2 ≤ 59) &&
      isoTail tail
  | _ => false

/-- A JSON value castable to a TEXT column: null or a string. -/
def textOk : JsonValue → Bool
  | .null => true
  | .str _ => true
  | _ => false

/-- A JSON value castable to the INTEGER column: null or a number (the
model carries integers only, so any number is in range). -/
def integerOk : JsonValue → Bool
  | .null => true
  | .num _ => true
  | _ => false

/-- A JSON value castable to the TIMESTAMPTZ column: null or a UTC
instant string. -/
def timestamptzOk : JsonValue → Bool
  | .null => true
  | .str s => isIsoInstant s
  | _ => false

/-- Error message the store reports when a value fails the cast to its
column type. -/
def castErrMsg (col ty : String) : String :=
  "invalid input for type " ++ ty ++ " in column " ++ col

/-- Insert into the conversation_events table, modelled from the table
definition in src/unnamed/part_001: the typed columns first (event_id,
conversation_id, merchant_id, direction, source, intention, language are
TEXT; timestamp is TIMESTAMPTZ; response_time_ms is INTEGER; the
remaining columns are JSONB and accept any JSON value), then event_id
TEXT PRIMARY KEY, conversation_id, merchant_id and timestamp NOT NULL,
and the CHECK constraints on direction and source. A failed cast or a
violated constraint rejects the whole insert with an error message and
leaves the table unchanged; otherwise the row is appended. -/
def insertRow (store : List Row) (r : Row) : Except String (List Row) :=
  if !textOk r.event_id then .error (castErrMsg "event_id" "text")
  else if !textOk r.conversation_id then .error (castErrMsg "conversation_id" "text")
  else if !textOk r.merchant_id then .error (castErrMsg "merchant_id" "text")
  else if !textOk r.direction then .error (castErrMsg "direction" "text")
  else if !textOk r.source then .error (castErrMsg "source" "text")
  else if !timestamptzOk r.timestamp then
    .error (castErrMsg "timestamp" "timestamp with time zone")
  else if !textOk r.intention then .error (castErrMsg "intention" "text")
  else if !textOk r.language then .error (castErrMsg "language" "text")
  else if !integerOk r.response_time_ms then
    .error (castErrMsg "response_time_ms" "integer")
  else if pkConflict store r then .error pkConflictMsg
  else if isNull r.conversation_id then
    .error "null value in column conversation_id violates not-null constraint"
  else if isNull r.merchant_id then
    .error "null value in column merchant_id violates not-null constraint"
  else if isNull r.timestamp then
    .error "null value in column timestamp violates not-null constraint"
  else if !checkDirection r.direction then
    .error "new row violates check constraint on direction"
  else if !checkSource r.source then
    .error "new row violates check constraint on source"
  else .ok (store ++ [r])

/-- Incoming HTTP request as the Vercel handler sees it: the method, the
authorization header (undefined when absent) and the parsed JSON body
(undefined when absent). -/
structure Request where
  method : String
  authorization : Option String
  body : Option JsonValue

/-- Terminal HTTP response: status code and JSON payload. -/
structure Response where
  status : Nat
  body : JsonValue
deriving Repr

/-- Authentication test of the handler, from
if (!authHeader || authHeader !== Bearer LOGGER_API_KEY) in
src/api/log-event.ts: a missing or empty header fails, and otherwise the
header must equal the Bearer line built from the configured key. -/
def authFails (apiKey : String) : Option String → Bool
  | none => true
  | some a => a == "" || a != "Bearer " ++ apiKey

/-- Validation error message of the handler, verbatim. -/
def missingFieldsMsg : String :=
  "Missing required fields: event_id, conversation_id, merchant_id"

/-- Row built by the handler from the request body: the three identifiers
are passed through as given, every optional column goes through the
OR-null pattern, and timestamp falls back to the current instant (the
argument now) when the submitted value is absent or falsy. -/
def mkRow (now : String) (ev : JsonValue) : Row where
  event_id := (getField ev "event_id").getD .null
  conversation_id := (getField ev "conversation_id").getD .null
  merchant_id := (getField ev "merchant_id").getD .null
  direction := orNull (getField ev "direction")
  source := orNull (getField ev "source")
  message := orNull (getField ev "message")
  timestamp := orDefault (getField ev "timestamp") (.str now)
  intention := orNull (getField ev "intention")
  tagging := orNull (getField ev "tagging")
  language := orNull (getField ev "language")
  contextual_summary := orNull (getField ev "contextual_summary")
  working_context := orNull (getField ev "working_context")
  memory_basket := orNull (getField ev "memory_basket")
  retrieved_docs := orNull (getField ev "retrieved_docs")
  filter_response := orNull (getField ev "filter_response")
  model_calls := orNull (getField ev "model_calls")
  response_time_ms := orNull (getField ev "response_time_ms")
  eval := orNull (getField ev "eval")
  metadata := orNull (getField ev "metadata")

/-- The ingestion handler of src/api/log-event.ts, one request against one
store state. The parameters apiKey and now stand for the LOGGER_API_KEY
environment variable and the current instant. The checks run in source
order: method, authentication, required-field validation, insert; each
failure returns its terminal response with the store untouched. -/
def handler (apiKey now : String) (req : Request) (store : List Row) :
    Response × List Row :=
  if req.method != "POST" then
    ({ status := 405, body := .obj [("error", .str "Method not allowed")] }, store)
  else if authFails apiKey req.authorization then
    ({ status := 401, body := .obj [("error", .str "Unauthorized")] }, store)
  else
    match req.body with
    | none =>
        ({ status := 400, body := .obj [("error", .str missingFieldsMsg)] }, store)
    | some ev =>
        if !truthy ev || !truthyOpt (getField ev "event_id")
            || !truthyOpt (getField ev "conversation_id")
            || !truthyOpt (getField ev "merchant_id") then
          ({ status := 400, body := .obj [("error", .str missingFieldsMsg)] }, store)
        else
          match insertRow store (mkRow now ev) with
          | .error msg =>
              ({ status := 500, body := .obj [("error", .str msg)] }, store)
          | .ok newStore =>
              ({ status := 200, body := .obj [("ok", .bool true)] }, newStore)

/-- Exception values the Python transport layer can raise inside the
coroutine: the httpx timeout exception, a connection-level error, or any
other exception (serialization errors included). -/
inductive PyErr where
  | timeoutException
  | connectError (msg : String)
  | other (msg : String)
deriving Repr

/-- Message text carried by a Python exception value. -/
def pyErrMsg : PyErr → String
  | .timeoutException => "timed out"
  | .connectError m => m
  | .other m => m

/-- Behaviour of the network on one send attempt, the nondeterministic
input of the dispatcher model: the post either completes with a status
code, exceeds the five-second deadline, fails to connect, or raises some
other exception before or during the request. -/
inductive SendOutcome where
  | completes (status : Nat)
  | timesOut
  | connectionFails (msg : String)
  | raises (msg : String)
deriving Repr

/-- The awaited httpx post inside the try block of _log_event: it returns
the response status code or raises the exception the network outcome
dictates. -/
def clientPost : SendOutcome → Except PyErr Nat
  | .completes status => .ok status
  | .timesOut => .error .timeoutException
  | .connectionFails m => .error (.connectError m)
  | .raises m => .error (.other m)

/-- Environment configuration read by the dispatcher module: the two
variables LOGGER_ENDPOINT and LOGGER_API_KEY, each possibly unset. -/
structure LoggerConfig where
  endpoint : Option String
  apiKey : Option String

/-- Python truthiness of an optional environment string: unset and empty
both count as missing, matching the if-not test in _log_event. -/
def truthyStr : Option String → Bool
  | none => false
  | some s => s != ""

/-- Configuration test of _log_event: both variables must be set and
non-empty. -/
def configured (cfg : LoggerConfig) : Bool :=
  truthyStr cfg.endpoint && truthyStr cfg.apiKey

/-- Warning text _log_event logs when configuration is missing. -/
def notConfiguredMsg : String :=
  "Conversation logger not configured: missing LOGGER_ENDPOINT or LOGGER_API_KEY"

/-- Observable result of one run of the coroutine: the local warnings it
logged and whether it attempted the network post at all. -/
structure LogOutcome where
  warnings : List String
  postAttempted : Bool
deriving Repr

/-- The coroutine _log_event from src/unnamed/part_000 section 5.1: a
missing configuration logs a warning and returns without any network
activity; otherwise the post runs inside a try block whose except clauses
catch the timeout exception and every other exception, each converted to
a local warning. The Except result records whether an exception escapes
the coroutine; every branch returns ok, matching the catch-all handlers
in the source. -/
def log_event (cfg : LoggerConfig) (net : SendOutcome) : Except PyErr LogOutcome :=
  if !configured cfg then
    .ok { warnings := [notConfiguredMsg], postAttempted := false }
  else
    match clientPost net with
    | .ok status =>
        if status != 200 then
          .ok { warnings := ["Conversation logger received status " ++ toString status],
                postAttempted := true }
        else
          .ok { warnings := [], postAttempted := true }
    | .error .timeoutException =>
        .ok { warnings := ["Conversation logger timed out"], postAttempted := true }
    | .error e =>
        .ok { warnings := ["Conversation logger failed: " ++ pyErrMsg e],
              postAttempted := true }

/-- What the caller of fire_log observes: whether any exception propagated
into it, and whether a network post ran to completion (or to its timeout)
before control came back. -/
structure DispatchResult where
  raisedToCaller : Option PyErr
  sendBeforeReturn : Bool
deriving Repr

/-- The dispatcher entry point fire_log from src/unnamed/part_000 section
5.1. With a running event loop, loop.create_task schedules the coroutine
detached and control returns before the task body starts, so no send
happens before return. Without a running loop, get_running_loop raises
RuntimeError and the fallback calls asyncio.run, which drives the whole
coroutine — including any network post and its wait — to completion before
returning; the surrounding try swallows every exception, so nothing is
raised to the caller on either path. -/
def fire_log (cfg : LoggerConfig) (loopRunning : Bool) (net : SendOutcome) :
    DispatchResult :=
  if loopRunning then
    { raisedToCaller := none, sendBeforeReturn := false }
  else
    match log_event cfg net with
    | .ok out => { raisedToCaller := none, sendBeforeReturn := out.postAttempted }
    | .error _ => { raisedToCaller := none, sendBeforeReturn := true }

/-- Static payload of the health probe handler in src/api/log-event.ts. -/
def healthPayload : JsonValue :=
  .obj [("service", .str "AeroChat Conversation Logger"),
        ("status", .str "running"),
        ("endpoint", .str "POST /api/log-event")]

/-- The health probe handler: it ignores the request entirely (no method
check, no body access, no store access) and returns the static payload
with status 200. -/
def healthHandler (_req : Request) : Response :=
  { status := 200, body := healthPayload }

/-- A request body lacks a required identifier when the field is absent,
null, or the empty string — the sense in which the specification speaks of
a missing or empty identifier. -/
def lacksField (ev : JsonValue) (k : String) : Prop :=
  getField ev k = none ∨ getField ev k = some .null ∨ getField ev k = some (.str "")

/-- A message mentions a field name when the name occurs in it verbatim. -/
def mentions (msg k : String) : Prop :=
  ∃ p q, msg = p ++ k ++ q

/-- Concrete valid inbound body used by acceptance witnesses. -/
def bodyM1 : JsonValue :=
  .obj [("event_id", .str "m1"), ("conversation_id", .str "c1"),
        ("merchant_id", .str "merch1"), ("direction", .str "inbound"),
        ("source", .str "customer"), ("language", .str "es-MX")]

/-- Concrete store already holding the row for event m1. -/
def storeM1 : List Row :=
  [mkRow "2026-02-25T00:00:00Z" bodyM1]

/-- Concrete resubmission of event m1 with different payload fields. -/
def reqM1Again : Request :=
  { method := "POST", authorization := some "Bearer secret",
    body := some (.obj [("event_id", .str "m1"), ("conversation_id", .str "c9"),
                        ("merchant_id", .str "merch9")]) }

/-- Concrete configured dispatcher environment. -/
def cfgSet : LoggerConfig :=
  { endpoint := some "https://logger.example/api/log-event", apiKey := some "secret" }

lemma truthy_ne_null {v : JsonValue} (h : truthy v = true) : isNull v = false := by
  cases v <;> simp_all [truthy, isNull]

lemma bearer_ne_empty (k : String) : ("Bearer " ++ k : String) ≠ "" := by
  intro h
  have h2 := congrArg String.length h
  simp [String.length_append] at h2
  exact absurd h2.1 (by decide)

lemma authFails_bearer (apiKey : String) :
    authFails apiKey (some ("Bearer " ++ apiKey)) = false := by
  have h1 : ("Bearer " ++ apiKey == "") = false := by
    rw [beq_eq_false_iff_ne]
    exact bearer_ne_empty apiKey
  simp [authFails, h1]

lemma authFails_of_ne {apiKey : String} {o : Option String}
    (h : o ≠ some ("Bearer " ++ apiKey)) : authFails apiKey o = true := by
  cases o with
  | none => rfl
  | some a =>
      have ha : a ≠ "Bearer " ++ apiKey := by
        intro hh
        exact h (by rw [hh])
      simp [authFails, ha]

lemma handler_not_post {apiKey now : String} {req : Request} {store : List Row}
    (hm : req.method ≠ "POST") :
    handler apiKey now req store =
      ({ status := 405, body := .obj [("error", .str "Method not allowed")] }, store) := by
  have h1 : (req.method != "POST") = true := by simpa [bne_iff_ne] using hm
  simp [handler, h1]

lemma handler_bad_auth {apiKey now : String} {req : Request} {store : List Row}
    (hm : req.method = "POST")
    (ha : req.authorization ≠ some ("Bearer " ++ apiKey)) :
    handler apiKey now req store =
      ({ status := 401, body := .obj [("error", .str "Unauthorized")] }, store) := by
  have h1 : (req.method != "POST") = false := by simp [hm]
  simp [handler, h1, authFails_of_ne ha]

lemma handler_missing {apiKey now : String} {req : Request} {store : List Row}
    (hm : req.method = "POST")
    (ha : req.authorization = some ("Bearer " ++ apiKey))
    (hval : req.body = none ∨ ∃ ev, req.body = some ev ∧
      (truthy ev = false ∨ truthyOpt (getField ev "event_id") = false
       ∨ truthyOpt (getField ev "conversation_id") = false
       ∨ truthyOpt (getField ev "merchant_id") = false)) :
    handler apiKey now req store =
      ({ status := 400, body := .obj [("error", .str missingFieldsMsg)] }, store) := by
  have h1 : (req.method != "POST") = false := by simp [hm]
  rcases hval with hnone | ⟨ev, hev, hcond⟩
  · simp [handler, h1, ha, authFails_bearer, hnone]
  · rcases hcond with h | h | h | h <;>
      simp [handler, h1, ha, authFails_bearer, hev, h]

lemma handler_insert_error {apiKey now : String} {req : Request} {store : List Row}
    {ev : JsonValue} {msg : String}
    (hm : req.method = "POST")
    (ha : req.authorization = some ("Bearer " ++ apiKey))
    (hb : req.body = some ev)
    (hev : truthy ev = true)
    (hid : truthyOpt (getField ev "event_id") = true)
    (hconv : truthyOpt (getField ev "conversation_id") = true)
    (hmerch : truthyOpt (getField ev "merchant_id") = true)
    (herr : insertRow store (mkRow now ev) = .error msg) :
    handler apiKey now req store =
      ({ status := 500, body := .obj [("error", .str msg)] }, store) := by
  have h1 : (req.method != "POST") = false := by simp [hm]
  simp [handler, h1, ha, authFails_bearer, hb, hev, hid, hconv, hmerch, herr]

lemma isNull_getD {o : Option JsonValue} (h : truthyOpt o = true) :
    isNull (o.getD .null) = false := by
  cases o with
  | none => simp [truthyOpt] at h
  | some v => exact truthy_ne_null h

lemma log_event_ok (cfg : LoggerConfig) (net : SendOutcome) :
    ∃ out, log_event cfg net = Except.ok out := by
  unfold log_event
  split
  · exact ⟨_, rfl⟩
  · cases net with
    | completes status =>
        show ∃ out, (if (status != 200) = true then _ else _) = Except.ok out
        split
        · exact ⟨_, rfl⟩
        · exact ⟨_, rfl⟩
    | timesOut => exact ⟨_, rfl⟩
    | connectionFails m => exact ⟨_, rfl⟩
    | raises m => exact ⟨_, rfl⟩

lemma log_event_not_configured {cfg : LoggerConfig} (net : SendOutcome)
    (hc : configured cfg = false) :
    log_event cfg net =
      Except.ok { warnings := [notConfiguredMsg], postAttempted := false } := by
  simp [log_event, hc]

lemma fire_log_silent (cfg : LoggerConfig) (loopRunning : Bool) (net : SendOutcome) :
    (fire_log cfg loopRunning net).raisedToCaller = none := by
  unfold fire_log
  split
  · rfl
  · rcases log_event_ok cfg net with ⟨out, hout⟩
    rw [hout]

/-- C2: for every POST request to the ingestion endpoint whose
Authorization header is missing or differs from the server-held Bearer
line, the handler responds 401 with the Unauthorized error body and the
store is unchanged. The request body is an arbitrary parameter of the
statement and is never consulted, so the body is not processed further
regardless of its validity. (A request with a different verb never
reaches authentication; that precedence is claim C9 and claim C4.) -/
theorem claim_C2_unauthorized (apiKey now : String) (req : Request) (store : List Row)
    (hm : req.method = "POST")
    (ha : req.authorization ≠ some ("Bearer " ++ apiKey)) :
    handler apiKey now req store =
      ({ status := 401, body := .obj [("error", .str "Unauthorized")] }, store) :=
  handler_bad_auth hm ha

/-- C2 witness: a POST with header Bearer wrong and a fully valid body is
rejected with 401 and writes nothing. -/
theorem claim_C2_witness :
    handler "secret" "2026-02-25T00:00:00Z"
        { method := "POST", authorization := some "Bearer wrong", body := some bodyM1 } [] =
      ({ status := 401, body := .obj [("error", .str "Unauthorized")] }, []) :=
  claim_C2_unauthorized "secret" "2026-02-25T00:00:00Z" _ [] rfl (by decide)

/-- C3: for every authenticated POST whose body is absent or lacks one of
the three required identifiers (absent field, null, or empty string), the
handler writes nothing and responds 400 with the fixed error message,
which names every required field — in particular each missing one. -/
theorem claim_C3_missing_fields (apiKey now : String) (req : Request) (store : List Row)
    (hm : req.method = "POST")
    (ha : req.authorization = some ("Bearer " ++ apiKey))
    (hlack : req.body = none ∨ ∃ ev, req.body = some ev ∧
      (lacksField ev "event_id" ∨ lacksField ev "conversation_id"
        ∨ lacksField ev "merchant_id")) :
    handler apiKey now req store =
      ({ status := 400, body := .obj [("error", .str missingFieldsMsg)] }, store)
    ∧ mentions missingFieldsMsg "event_id"
    ∧ mentions missingFieldsMsg "conversation_id"
    ∧ mentions missingFieldsMsg "merchant_id" := by
  refine ⟨?_, ⟨"Missing required fields: ", ", conversation_id, merchant_id", rfl⟩,
    ⟨"Missing required fields: event_id, ", ", merchant_id", rfl⟩,
    ⟨"Missing required fields: event_id, conversation_id, ", "", rfl⟩⟩
  apply handler_missing hm ha
  rcases hlack with hnone | ⟨ev, hev, hl⟩
  · exact Or.inl hnone
  · refine Or.inr ⟨ev, hev, ?_⟩
    have key : ∀ k, lacksField ev k → truthyOpt (getField ev k) = false := by
      intro k hk
      rcases hk with h | h | h <;> simp [truthyOpt, h, truthy]
    rcases hl with h | h | h
    · exact Or.inr (Or.inl (key _ h))
    · exact Or.inr (Or.inr (Or.inl (key _ h)))
    · exact Or.inr (Or.inr (Or.inr (key _ h)))

/-- C3 witness: an authenticated POST whose conversation_id is the empty
string and whose merchant_id is absent gets the 400 response and no row. -/
theorem claim_C3_witness :
    handler "secret" "2026-02-25T00:00:00Z"
        { method := "POST", authorization := some "Bearer secret",
          body := some (.obj [("event_id", .str "m1"), ("conversation_id", .str "")]) } [] =
      ({ status := 400, body := .obj [("error", .str missingFieldsMsg)] }, [])
    ∧ mentions missingFieldsMsg "event_id"
    ∧ mentions missingFieldsMsg "conversation_id"
    ∧ mentions missingFieldsMsg "merchant_id" :=
  claim_C3_missing_fields "secret" "2026-02-25T00:00:00Z" _ [] rfl rfl
    (Or.inr ⟨_, rfl, Or.inr (Or.inl (Or.inr (Or.inr rfl)))⟩)

/-- C4: every request with a verb other than POST receives 405 with the
Method-not-allowed error body and the store is unchanged; the credential
and the body are arbitrary parameters of the statement, so neither is
authenticated, validated, nor written. -/
theorem claim_C4_method_not_allowed (apiKey now : String) (req : Request)
    (store : List Row) (hm : req.method ≠ "POST") :
    handler apiKey now req store =
      ({ status := 405, body := .obj [("error", .str "Method not allowed")] }, store) :=
  handler_not_post hm

/-- C4 witness: a GET with a wrong credential and a valid body still gets
405 and writes nothing. -/
theorem claim_C4_witness :
    handler "secret" "2026-02-25T00:00:00Z"
        { method := "GET", authorization := some "Bearer wrong", body := some bodyM1 } [] =
      ({ status := 405, body := .obj [("error", .str "Method not allowed")] }, []) :=
  claim_C4_method_not_allowed "secret" "2026-02-25T00:00:00Z" _ [] (by decide)

/-- C5: for every authenticated, validated request whose single insert the
store rejects — the primary-key conflict on a duplicate event_id included —
the handler responds 500 carrying exactly the error message the store
reported, and the store value, hence every existing record and in
particular the original record under that event_id, is returned unchanged;
the handler performs the one insert attempt and no other store operation. -/
theorem claim_C5_store_failure (apiKey now : String) (req : Request) (store : List Row)
    (ev : JsonValue) (msg : String)
    (hm : req.method = "POST")
    (ha : req.authorization = some ("Bearer " ++ apiKey))
    (hb : req.body = some ev)
    (hev : truthy ev = true)
    (hid : truthyOpt (getField ev "event_id") = true)
    (hconv : truthyOpt (getField ev "conversation_id") = true)
    (hmerch : truthyOpt (getField ev "merchant_id") = true)
    (herr : insertRow store (mkRow now ev) = .error msg) :
    handler apiKey now req store =
      ({ status := 500, body := .obj [("error", .str msg)] }, store) :=
  handler_insert_error hm ha hb hev hid hconv hmerch herr

/-- C5 witness: resubmitting event_id m1 against a store already holding
m1 yields 500 with the duplicate-key message and the store, original row
included, is unchanged. -/
theorem claim_C5_witness :
    handler "secret" "2026-02-25T01:00:00Z" reqM1Again storeM1 =
      ({ status := 500, body := .obj [("error", .str pkConflictMsg)] }, storeM1) :=
  claim_C5_store_failure "secret" "2026-02-25T01:00:00Z" reqM1Again storeM1 _ pkConflictMsg
    rfl rfl rfl rfl rfl rfl rfl
    (by
      have hta : timestamptzOk (JsonValue.str "2026-02-25T01:00:00Z") = true := rfl
      simp [insertRow, pkConflict, storeM1, reqM1Again, mkRow, getField, lookupField,
        bodyM1, orNull, orDefault, truthy, beqJson, textOk, integerOk, hta])

/-- C7: every failure mode of the delivery — timeout, connection failure,
non-success status, serialization or any other exception — is caught
inside the coroutine and converted to a local warning, so the coroutine
always returns normally and fire_log never raises into the caller, on
either scheduling path; and when the endpoint URL or the shared secret is
not configured, the coroutine attempts no post and only logs the local
not-configured warning. -/
theorem claim_C7_failures_contained (cfg : LoggerConfig) (loopRunning : Bool)
    (net : SendOutcome) :
    (fire_log cfg loopRunning net).raisedToCaller = none
    ∧ (∃ out, log_event cfg net = Except.ok out
        ∧ (configured cfg = false →
            out.warnings = [notConfiguredMsg] ∧ out.postAttempted = false)) := by
  refine ⟨fire_log_silent cfg loopRunning net, ?_⟩
  cases hc : configured cfg with
  | true =>
      rcases log_event_ok cfg net with ⟨out, hout⟩
      exact ⟨out, hout, by simp [hc]⟩
  | false =>
      exact ⟨_, log_event_not_configured net hc, fun _ => ⟨rfl, rfl⟩⟩

/-- C7 witness: with both environment variables unset and the network
timing out, fire_log raises nothing and the coroutine is the silent
logged no-op. -/
theorem claim_C7_witness :
    (fire_log { endpoint := none, apiKey := none } false SendOutcome.timesOut).raisedToCaller
        = none
    ∧ (∃ out,
        log_event { endpoint := none, apiKey := none } SendOutcome.timesOut = Except.ok out
        ∧ (configured { endpoint := none, apiKey := none } = false →
            out.warnings = [notConfiguredMsg] ∧ out.postAttempted = false)) :=
  claim_C7_failures_contained { endpoint := none, apiKey := none } false SendOutcome.timesOut

/-- C8 (code bug): the claim states that dispatch returns before any
network I/O completes regardless of whether an event loop is running. The
code satisfies it on the running-loop path (the task is detached, no send
before return) but violates it on the fallback path: with no running loop,
fire_log calls asyncio.run, which drives the whole send to completion —
here a completed post — before control returns to the caller, up to the
five-second transport deadline. No exception reaches the caller on either
path. This theorem evaluates the model at the failing input (configured
environment, no running loop). -/
theorem claim_C8_code_divergence :
    (fire_log cfgSet true (SendOutcome.completes 200)).sendBeforeReturn = false
    ∧ (fire_log cfgSet false (SendOutcome.completes 200)).sendBeforeReturn = true
    ∧ (fire_log cfgSet false (SendOutcome.completes 200)).raisedToCaller = none :=
  ⟨rfl, rfl, rfl⟩

/-- C9: the handler applies its checks in the order method, then
authentication, then validation, and each failing check short-circuits: a
non-POST request gets 405 whatever its credential and body, and a POST
with a bad credential gets 401 whatever its body. -/
theorem claim_C9_check_order (apiKey now : String) (store : List Row) :
    (∀ req : Request, req.method ≠ "POST" →
        handler apiKey now req store =
          ({ status := 405, body := .obj [("error", .str "Method not allowed")] }, store))
    ∧ (∀ req : Request, req.method = "POST" →
        req.authorization ≠ some ("Bearer " ++ apiKey) →
        handler apiKey now req store =
          ({ status := 401, body := .obj [("error", .str "Unauthorized")] }, store)) :=
  ⟨fun _ hm => handler_not_post hm, fun _ hm ha => handler_bad_auth hm ha⟩

/-- C9 witness: a DELETE with a wrong credential and no body gets 405, and
a POST with no credential and a body missing every required field gets
401 — the earlier check wins in both cases. -/
theorem claim_C9_witness :
    handler "secret" "2026-02-25T00:00:00Z"
        { method := "DELETE", authorization := some "Bearer wrong", body := none } [] =
      ({ status := 405, body := .obj [("error", .str "Method not allowed")] }, [])
    ∧ handler "secret" "2026-02-25T00:00:00Z"
        { method := "POST", authorization := none, body := some (.obj []) } [] =
      ({ status := 401, body := .obj [("error", .str "Unauthorized")] }, []) :=
  ⟨(claim_C9_check_order "secret" "2026-02-25T00:00:00Z" []).1 _ (by decide),
   (claim_C9_check_order "secret" "2026-02-25T00:00:00Z" []).2 _ rfl (by decide)⟩

/-- C10: the health probe handler returns status 200 with the same static
payload — service name, running status, and the single write endpoint —
for every request, whatever its verb, credential or body; its type gives
it no access to the store, so it has no side effect. -/
theorem claim_C10_health_probe (req : Request) :
    healthHandler req =
      { status := 200,
        body := .obj [("service", .str "AeroChat Conversation Logger"),
                      ("status", .str "running"),
                      ("endpoint", .str "POST /api/log-event")] } :=
  rfl

end AerochatLogger
